import Mathlib

/-
  Verification of the Inventory Movement and Stock Consistency subsystem
  of the Back_Poetry repository.

  The definitions below are a shallow embedding of
  src/lite-thinking/dominio/entidades/inventario.py (the pure domain
  entities Inventario and MovimientoInventario and their operations) and
  of the read-only stock queries of
  src/lite-thinking/backend/apps/inventario/views.py.

  Conventions of the embedding:
  - Python int is Int (unbounded, signed).
  - Decimal (precio_unitario) is Rat.
  - datetime fields (fecha, fecha_actualizacion) are omitted: no verified
    property depends on time values.
  - raise ValueError is Except.error with a structured error constructor,
    one per raise site, carrying the data interpolated into the message.
  - Each mutating method returns the pair (state on exit, result): the
    state component is the entity state at the moment control leaves the
    method, whether normally or by exception, following the statement
    order of the source.
-/

set_option maxHeartbeats 1000000

namespace BackPoetry

/-- Tipos de movimiento de inventario (enum TipoMovimiento). -/
inductive TipoMovimiento where
  | entrada
  | salida
  | ajuste
  | devolucion
deriving DecidableEq, Repr

/-- Domain errors: one constructor per raise site in inventario.py, carrying
    the data that the source interpolates into the ValueError message. -/
inductive DomError where
  | cantidadNoPositiva
  | motivoObligatorio
  | precioNegativo
  | productoInvalido
  | cantidadActualNegativa
  | cantidadReservadaNegativa
  | reservadaMayorQueActual
  | inventarioInsuficiente (disponible solicitado : Int)
  | insuficienteParaReservar (disponible solicitado : Int)
  | liberarMasQueReservado (reservado solicitado : Int)
  | nuevaCantidadNegativa
deriving DecidableEq, Repr

/-- MovimientoInventario: one movement of inventory (dataclass in inventario.py). -/
structure MovimientoInventario where
  tipo : TipoMovimiento
  cantidad : Int
  motivo : String
  usuario_id : Int
  precio_unitario : Option Rat
deriving DecidableEq, Repr

/-- The failure condition of the motivo check in MovimientoInventario.validar:
    Python "not self.motivo or len(self.motivo.strip()) == 0", i.e. the string
    is empty or consists of whitespace only. -/
def motivoInvalido (m : String) : Bool :=
  m.data.isEmpty || m.data.all (fun c => c.isWhitespace)

/-- The failure condition of the precio_unitario check in
    MovimientoInventario.validar: it is not None and is negative. -/
def precioInvalido : Option Rat → Bool
  | none => false
  | some p => decide (p < 0)

/-- Construction of a MovimientoInventario: the dataclass runs validar in
    its post-init hook, so construction fails exactly when validar raises. -/
def mkMovimiento (tipo : TipoMovimiento) (cantidad : Int) (motivo : String)
    (usuario_id : Int) (precio_unitario : Option Rat) :
    Except DomError MovimientoInventario :=
  if cantidad ≤ 0 then .error .cantidadNoPositiva
  else if motivoInvalido motivo then .error .motivoObligatorio
  else if precioInvalido precio_unitario then .error .precioNegativo
  else .ok ⟨tipo, cantidad, motivo, usuario_id, precio_unitario⟩

/-- Inventario: stock record of one product (dataclass in inventario.py).
    The movimientos field embeds the in-memory movement history. -/
structure Inventario where
  producto_id : Int
  cantidad_actual : Int
  cantidad_reservada : Int
  ubicacion : String
  lote : Option String
  id : Option Int
  movimientos : List MovimientoInventario
deriving DecidableEq, Repr

/-- Inventario.validar: the business-rule validation run at construction. -/
def Inventario.validar (inv : Inventario) : Except DomError Unit :=
  if inv.producto_id = 0 ∨ inv.producto_id ≤ 0 then .error .productoInvalido
  else if inv.cantidad_actual < 0 then .error .cantidadActualNegativa
  else if inv.cantidad_reservada < 0 then .error .cantidadReservadaNegativa
  else if inv.cantidad_reservada > inv.cantidad_actual then .error .reservadaMayorQueActual
  else .ok ()

/-- Inventario.cantidad_disponible: on-hand minus reserved. -/
def Inventario.cantidad_disponible (inv : Inventario) : Int :=
  inv.cantidad_actual - inv.cantidad_reservada

/-- Inventario.registrar_entrada: register an inventory entry. -/
def Inventario.registrar_entrada (inv : Inventario) (cantidad : Int) (motivo : String)
    (usuario_id : Int) (precio_unitario : Option Rat) :
    Inventario × Except DomError MovimientoInventario :=
  if cantidad ≤ 0 then (inv, .error .cantidadNoPositiva)
  else
    match mkMovimiento .entrada cantidad motivo usuario_id precio_unitario with
    | .error e => (inv, .error e)
    | .ok mov =>
      ({ inv with
          cantidad_actual := inv.cantidad_actual + cantidad,
          movimientos := inv.movimientos ++ [mov] },
        .ok mov)

/-- Inventario.registrar_salida: register an inventory exit; the availability
    check is skipped when verificar_disponibilidad is false. -/
def Inventario.registrar_salida (inv : Inventario) (cantidad : Int) (motivo : String)
    (usuario_id : Int) (verificar_disponibilidad : Bool) :
    Inventario × Except DomError MovimientoInventario :=
  if cantidad ≤ 0 then (inv, .error .cantidadNoPositiva)
  else if verificar_disponibilidad ∧ cantidad > inv.cantidad_disponible then
    (inv, .error (.inventarioInsuficiente inv.cantidad_disponible cantidad))
  else
    match mkMovimiento .salida cantidad motivo usuario_id none with
    | .error e => (inv, .error e)
    | .ok mov =>
      ({ inv with
          cantidad_actual := inv.cantidad_actual - cantidad,
          movimientos := inv.movimientos ++ [mov] },
        .ok mov)

/-- Inventario.reservar: reserve a quantity; no movement is created. -/
def Inventario.reservar (inv : Inventario) (cantidad : Int) :
    Inventario × Except DomError Unit :=
  if cantidad ≤ 0 then (inv, .error .cantidadNoPositiva)
  else if cantidad > inv.cantidad_disponible then
    (inv, .error (.insuficienteParaReservar inv.cantidad_disponible cantidad))
  else ({ inv with cantidad_reservada := inv.cantidad_reservada + cantidad }, .ok ())

/-- Inventario.liberar_reserva: release a reserved quantity; no movement. -/
def Inventario.liberar_reserva (inv : Inventario) (cantidad : Int) :
    Inventario × Except DomError Unit :=
  if cantidad ≤ 0 then (inv, .error .cantidadNoPositiva)
  else if cantidad > inv.cantidad_reservada then
    (inv, .error (.liberarMasQueReservado inv.cantidad_reservada cantidad))
  else ({ inv with cantidad_reservada := inv.cantidad_reservada - cantidad }, .ok ())

/-- Inventario.ajustar_inventario: set cantidad_actual to an absolute value,
    recording an AJUSTE movement of the absolute difference whose motivo
    embeds the before and after values. -/
def Inventario.ajustar_inventario (inv : Inventario) (nueva_cantidad : Int)
    (motivo : String) (usuario_id : Int) :
    Inventario × Except DomError MovimientoInventario :=
  if nueva_cantidad < 0 then (inv, .error .nuevaCantidadNegativa)
  else
    match mkMovimiento .ajuste |nueva_cantidad - inv.cantidad_actual|
        ("Ajuste: " ++ motivo ++ " (de " ++ toString inv.cantidad_actual
          ++ " a " ++ toString nueva_cantidad ++ ")")
        usuario_id none with
    | .error e => (inv, .error e)
    | .ok mov =>
      ({ inv with
          cantidad_actual := nueva_cantidad,
          movimientos := inv.movimientos ++ [mov] },
        .ok mov)

/-- One invocation of a Stock Mutation Engine operation with its arguments. -/
inductive Op where
  | entradaOp (cantidad : Int) (motivo : String) (usuario_id : Int) (precio : Option Rat)
  | salidaOp (cantidad : Int) (motivo : String) (usuario_id : Int) (verificar : Bool)
  | reservarOp (cantidad : Int)
  | liberarOp (cantidad : Int)
  | ajustarOp (nueva : Int) (motivo : String) (usuario_id : Int)
deriving DecidableEq, Repr

/-- Dispatch of one operation, keeping both the state on exit and the result. -/
def aplicarFull (inv : Inventario) : Op → Inventario × Except DomError (Option MovimientoInventario)
  | .entradaOp c m u p =>
    ((inv.registrar_entrada c m u p).1, ((inv.registrar_entrada c m u p).2).map some)
  | .salidaOp c m u v =>
    ((inv.registrar_salida c m u v).1, ((inv.registrar_salida c m u v).2).map some)
  | .reservarOp c =>
    ((inv.reservar c).1, ((inv.reservar c).2).map fun _ => none)
  | .liberarOp c =>
    ((inv.liberar_reserva c).1, ((inv.liberar_reserva c).2).map fun _ => none)
  | .ajustarOp n m u =>
    ((inv.ajustar_inventario n m u).1, ((inv.ajustar_inventario n m u).2).map some)

/-- One operation viewed as a state transformer that aborts on failure. -/
def aplicar (inv : Inventario) (op : Op) : Except DomError Inventario :=
  ((aplicarFull inv op).2).map fun _ => (aplicarFull inv op).1

/-- Sequential execution of a list of operations; any failure aborts the run. -/
def run (inv : Inventario) : List Op → Except DomError Inventario
  | [] => .ok inv
  | op :: ops => (aplicar inv op).bind fun s => run s ops

/-- The operations the ledger-conservation claim ranges over: entries, exits
    and adjustments (no reservation bookkeeping). -/
def esEntradaSalidaAjuste : Op → Bool
  | .entradaOp .. => true
  | .salidaOp .. => true
  | .ajustarOp .. => true
  | _ => false

/-- Sum of the quantities of the movements of one type in a ledger. -/
def sumCantidad (t : TipoMovimiento) (movs : List MovimientoInventario) : Int :=
  (movs.map fun mv => if mv.tipo = t then mv.cantidad else 0).sum

/-- The signed delta one operation contributes to cantidad_actual when it is
    an adjustment: target minus the cantidad_actual it runs against. -/
def deltaAjuste (inv : Inventario) : Op → Int
  | .ajustarOp n _ _ => n - inv.cantidad_actual
  | _ => 0

/-- Net signed effect of the AJUSTE operations along a successful run:
    each successful ajustarOp n contributes n minus the cantidad_actual of
    the state it ran against. -/
def ajusteNet (inv : Inventario) : List Op → Int
  | [] => 0
  | op :: ops =>
    match aplicar inv op with
    | .error _ => 0
    | .ok s => deltaAjuste inv op + ajusteNet s ops

/-- One row of the low-stock and out-of-stock queries of
    backend/apps/inventario/views.py: the stock quantities of the record
    together with the product's configured minimum threshold. -/
structure InventarioRow where
  producto_id : Int
  cantidad_actual : Int
  cantidad_reservada : Int
  stock_minimo : Int
deriving DecidableEq, Repr

/-- A Python runtime error surfaced by the persistence layer: here the
    TypeError a call raises when it passes a keyword argument the callee
    does not declare. -/
inductive PyError where
  | typeError (mensaje : String)
deriving DecidableEq, Repr

/-- Inventario.to_domain of backend/apps/inventario/models.py: it constructs
    the domain Inventario dataclass passing, among others, the keyword
    argument fecha_creacion — but the domain dataclass in
    dominio/entidades/inventario.py declares no such field, so the generated
    dataclass constructor rejects the unknown keyword and the call raises
    TypeError unconditionally, before any field is set or validated. -/
def InventarioRow.to_domain (_r : InventarioRow) : Except PyError Inventario :=
  .error (.typeError "unexpected keyword argument fecha_creacion")

/-- The cantidad_disponible property of the Django model: it builds the
    domain entity via to_domain and asks it for the available quantity
    (on-hand minus reserved); since to_domain raises on every call, so does
    every access to this property. -/
def InventarioRow.cantidad_disponible (r : InventarioRow) : Except PyError Int :=
  (r.to_domain).map fun entidad => entidad.cantidad_disponible

/-- InventarioViewSet.bajo_stock: a list comprehension over the queryset
    keeping the records with cantidad_disponible at most the product minimum;
    evaluating the property on an element propagates its exception out of the
    comprehension. -/
def bajo_stock : List InventarioRow → Except PyError (List InventarioRow)
  | [] => .ok []
  | r :: rest =>
    (r.cantidad_disponible).bind fun d =>
      if d ≤ r.stock_minimo then (bajo_stock rest).map fun resto => r :: resto
      else bajo_stock rest

/-- InventarioViewSet.sin_stock: the same comprehension with the condition
    cantidad_disponible at most zero. -/
def sin_stock : List InventarioRow → Except PyError (List InventarioRow)
  | [] => .ok []
  | r :: rest =>
    (r.cantidad_disponible).bind fun d =>
      if d ≤ 0 then (sin_stock rest).map fun resto => r :: resto
      else sin_stock rest

/-- The stock-record invariant of the specification. -/
def invariante (inv : Inventario) : Prop :=
  0 ≤ inv.cantidad_actual ∧ 0 ≤ inv.cantidad_reservada ∧
    inv.cantidad_reservada ≤ inv.cantidad_actual

instance (inv : Inventario) : Decidable (invariante inv) := by
  unfold invariante; infer_instance

/-! ### Characterization lemmas for the engine operations -/

lemma mkMovimiento_ok_iff (t : TipoMovimiento) (c : Int) (m : String) (u : Int)
    (p : Option Rat) (mov : MovimientoInventario) :
    mkMovimiento t c m u p = .ok mov ↔
      0 < c ∧ motivoInvalido m = false ∧ precioInvalido p = false ∧
        mov = ⟨t, c, m, u, p⟩ := by
  unfold mkMovimiento
  by_cases h1 : c ≤ 0
  · simp [h1]
  · by_cases h2 : motivoInvalido m
    · simp [h1, h2]
    · by_cases h3 : precioInvalido p
      · simp [h1, h2, h3]
      · simp [h1, h2, h3, eq_comm]
        omega

lemma registrar_entrada_ok (inv : Inventario) (c : Int) (m : String) (u : Int)
    (p : Option Rat) (s : Inventario) (mov : MovimientoInventario)
    (h : inv.registrar_entrada c m u p = (s, .ok mov)) :
    0 < c ∧ motivoInvalido m = false ∧ precioInvalido p = false ∧
      mov = ⟨.entrada, c, m, u, p⟩ ∧
      s = { inv with
              cantidad_actual := inv.cantidad_actual + c,
              movimientos := inv.movimientos ++ [mov] } := by
  unfold Inventario.registrar_entrada at h
  split at h
  · cases h
  · split at h
    · cases h
    next mov2 hmk =>
      obtain ⟨h1, h2, h3, h4⟩ := (mkMovimiento_ok_iff _ _ _ _ _ _).mp hmk
      obtain ⟨hs, hm⟩ := Prod.mk.injEq .. ▸ h
      cases hm
      exact ⟨h1, h2, h3, h4, hs.symm⟩

lemma registrar_entrada_eq_ok (inv : Inventario) (c : Int) (m : String) (u : Int)
    (p : Option Rat) (hc : 0 < c) (hm : motivoInvalido m = false)
    (hp : precioInvalido p = false) :
    inv.registrar_entrada c m u p =
      ({ inv with
          cantidad_actual := inv.cantidad_actual + c,
          movimientos := inv.movimientos ++ [⟨.entrada, c, m, u, p⟩] },
        .ok ⟨.entrada, c, m, u, p⟩) := by
  unfold Inventario.registrar_entrada
  rw [if_neg (by omega)]
  have hmk : mkMovimiento .entrada c m u p = .ok ⟨.entrada, c, m, u, p⟩ :=
    (mkMovimiento_ok_iff _ _ _ _ _ _).mpr ⟨hc, hm, hp, rfl⟩
  rw [hmk]

lemma registrar_salida_ok (inv : Inventario) (c : Int) (m : String) (u : Int)
    (v : Bool) (s : Inventario) (mov : MovimientoInventario)
    (h : inv.registrar_salida c m u v = (s, .ok mov)) :
    0 < c ∧ motivoInvalido m = false ∧
      (v = true → c ≤ inv.cantidad_disponible) ∧
      mov = ⟨.salida, c, m, u, none⟩ ∧
      s = { inv with
              cantidad_actual := inv.cantidad_actual - c,
              movimientos := inv.movimientos ++ [mov] } := by
  unfold Inventario.registrar_salida at h
  split at h
  · cases h
  next hc =>
    split at h
    · cases h
    next hdisp =>
      split at h
      · cases h
      next mov2 hmk =>
        obtain ⟨h1, h2, h3, h4⟩ := (mkMovimiento_ok_iff _ _ _ _ _ _).mp hmk
        obtain ⟨hs, hm⟩ := Prod.mk.injEq .. ▸ h
        cases hm
        refine ⟨h1, h2, ?_, h4, hs.symm⟩
        intro hv
        by_contra hgt
        exact hdisp ⟨hv, by omega⟩

lemma registrar_salida_eq_ok (inv : Inventario) (c : Int) (m : String) (u : Int)
    (v : Bool) (hc : 0 < c) (hm : motivoInvalido m = false)
    (hdisp : v = true → c ≤ inv.cantidad_disponible) :
    inv.registrar_salida c m u v =
      ({ inv with
          cantidad_actual := inv.cantidad_actual - c,
          movimientos := inv.movimientos ++ [⟨.salida, c, m, u, none⟩] },
        .ok ⟨.salida, c, m, u, none⟩) := by
  unfold Inventario.registrar_salida
  rw [if_neg (by omega)]
  rw [if_neg (by
    rintro ⟨hv, hgt⟩
    exact absurd (hdisp hv) (by omega))]
  have hmk : mkMovimiento .salida c m u none = .ok ⟨.salida, c, m, u, none⟩ :=
    (mkMovimiento_ok_iff _ _ _ _ _ _).mpr ⟨hc, hm, rfl, rfl⟩
  rw [hmk]

lemma registrar_salida_insuficiente (inv : Inventario) (c : Int) (m : String)
    (u : Int) (hc : 0 < c) (hgt : inv.cantidad_disponible < c) :
    inv.registrar_salida c m u true =
      (inv, .error (.inventarioInsuficiente inv.cantidad_disponible c)) := by
  unfold Inventario.registrar_salida
  rw [if_neg (by omega), if_pos ⟨rfl, by omega⟩]

lemma reservar_ok (inv : Inventario) (c : Int) (s : Inventario)
    (h : inv.reservar c = (s, .ok ())) :
    0 < c ∧ c ≤ inv.cantidad_disponible ∧
      s = { inv with cantidad_reservada := inv.cantidad_reservada + c } := by
  unfold Inventario.reservar at h
  split at h
  · cases h
  next hc =>
    split at h
    · cases h
    next hdisp =>
      obtain ⟨hs, _⟩ := Prod.mk.injEq .. ▸ h
      exact ⟨by omega, by omega, hs.symm⟩

lemma reservar_eq_ok (inv : Inventario) (c : Int) (hc : 0 < c)
    (hdisp : c ≤ inv.cantidad_disponible) :
    inv.reservar c =
      ({ inv with cantidad_reservada := inv.cantidad_reservada + c }, .ok ()) := by
  unfold Inventario.reservar
  rw [if_neg (by omega), if_neg (by omega)]

lemma liberar_reserva_ok (inv : Inventario) (c : Int) (s : Inventario)
    (h : inv.liberar_reserva c = (s, .ok ())) :
    0 < c ∧ c ≤ inv.cantidad_reservada ∧
      s = { inv with cantidad_reservada := inv.cantidad_reservada - c } := by
  unfold Inventario.liberar_reserva at h
  split at h
  · cases h
  next hc =>
    split at h
    · cases h
    next hres =>
      obtain ⟨hs, _⟩ := Prod.mk.injEq .. ▸ h
      exact ⟨by omega, by omega, hs.symm⟩

lemma liberar_reserva_eq_ok (inv : Inventario) (c : Int) (hc : 0 < c)
    (hres : c ≤ inv.cantidad_reservada) :
    inv.liberar_reserva c =
      ({ inv with cantidad_reservada := inv.cantidad_reservada - c }, .ok ()) := by
  unfold Inventario.liberar_reserva
  rw [if_neg (by omega), if_neg (by omega)]

lemma liberar_reserva_insuficiente (inv : Inventario) (c : Int)
    (h0 : 0 ≤ inv.cantidad_reservada) (hgt : inv.cantidad_reservada < c) :
    inv.liberar_reserva c =
      (inv, .error (.liberarMasQueReservado inv.cantidad_reservada c)) := by
  unfold Inventario.liberar_reserva
  rw [if_neg (by omega), if_pos (by omega)]

/-- The motivo built by ajustar_inventario starts with a non-whitespace
    character, so the motivo check of MovimientoInventario.validar passes. -/
lemma motivoInvalido_ajuste_append (s : String) :
    motivoInvalido ("Ajuste: " ++ s) = false := by
  unfold motivoInvalido
  rw [String.data_append]
  have h : "Ajuste: ".data = ['A', 'j', 'u', 's', 't', 'e', ':', ' '] := rfl
  rw [h]
  have hA : 'A'.isWhitespace = false := by decide
  simp [hA]

lemma ajustar_inventario_ok (inv : Inventario) (n : Int) (m : String) (u : Int)
    (s : Inventario) (mov : MovimientoInventario)
    (h : inv.ajustar_inventario n m u = (s, .ok mov)) :
    0 ≤ n ∧ n ≠ inv.cantidad_actual ∧
      mov.tipo = .ajuste ∧ mov.cantidad = |n - inv.cantidad_actual| ∧
      s = { inv with
              cantidad_actual := n,
              movimientos := inv.movimientos ++ [mov] } := by
  unfold Inventario.ajustar_inventario at h
  split at h
  · cases h
  next hn =>
    split at h
    · cases h
    next mov2 hmk =>
      obtain ⟨h1, _, _, h4⟩ := (mkMovimiento_ok_iff _ _ _ _ _ _).mp hmk
      obtain ⟨hs, hm⟩ := Prod.mk.injEq .. ▸ h
      cases hm
      refine ⟨by omega, ?_, by rw [h4], by rw [h4], hs.symm⟩
      intro heq
      rw [heq] at h1
      simp at h1

lemma ajustar_inventario_eq_ok (inv : Inventario) (n : Int) (m : String) (u : Int)
    (hn : 0 ≤ n) (hne : n ≠ inv.cantidad_actual) :
    inv.ajustar_inventario n m u =
      ({ inv with
          cantidad_actual := n,
          movimientos := inv.movimientos ++
            [⟨.ajuste, |n - inv.cantidad_actual|,
              "Ajuste: " ++ m ++ " (de " ++ toString inv.cantidad_actual
                ++ " a " ++ toString n ++ ")", u, none⟩] },
        .ok ⟨.ajuste, |n - inv.cantidad_actual|,
          "Ajuste: " ++ m ++ " (de " ++ toString inv.cantidad_actual
            ++ " a " ++ toString n ++ ")", u, none⟩) := by
  unfold Inventario.ajustar_inventario
  rw [if_neg (by omega)]
  have hmk := (mkMovimiento_ok_iff .ajuste |n - inv.cantidad_actual|
    ("Ajuste: " ++ m ++ " (de " ++ toString inv.cantidad_actual
      ++ " a " ++ toString n ++ ")") u none _).mpr
    ⟨by rw [abs_pos]; omega,
      by
        have : "Ajuste: " ++ m ++ " (de " ++ toString inv.cantidad_actual
            ++ " a " ++ toString n ++ ")" =
            "Ajuste: " ++ (m ++ " (de " ++ toString inv.cantidad_actual
              ++ " a " ++ toString n ++ ")") := by
          simp [String.append_assoc]
        rw [this]
        exact motivoInvalido_ajuste_append _,
      rfl, rfl⟩
  rw [hmk]

lemma registrar_entrada_error (inv : Inventario) (c : Int) (m : String) (u : Int)
    (p : Option Rat) (s : Inventario) (e : DomError)
    (h : inv.registrar_entrada c m u p = (s, .error e)) : s = inv := by
  unfold Inventario.registrar_entrada at h
  split at h
  · exact ((Prod.mk.injEq .. ▸ h).1).symm
  · split at h
    · exact ((Prod.mk.injEq .. ▸ h).1).symm
    · obtain ⟨h1, h2⟩ := Prod.mk.injEq .. ▸ h
      cases h2

lemma registrar_salida_error (inv : Inventario) (c : Int) (m : String) (u : Int)
    (v : Bool) (s : Inventario) (e : DomError)
    (h : inv.registrar_salida c m u v = (s, .error e)) : s = inv := by
  unfold Inventario.registrar_salida at h
  split at h
  · exact ((Prod.mk.injEq .. ▸ h).1).symm
  · split at h
    · exact ((Prod.mk.injEq .. ▸ h).1).symm
    · split at h
      · exact ((Prod.mk.injEq .. ▸ h).1).symm
      · obtain ⟨h1, h2⟩ := Prod.mk.injEq .. ▸ h
        cases h2

lemma reservar_error (inv : Inventario) (c : Int) (s : Inventario) (e : DomError)
    (h : inv.reservar c = (s, .error e)) : s = inv := by
  unfold Inventario.reservar at h
  split at h
  · exact ((Prod.mk.injEq .. ▸ h).1).symm
  · split at h
    · exact ((Prod.mk.injEq .. ▸ h).1).symm
    · obtain ⟨h1, h2⟩ := Prod.mk.injEq .. ▸ h
      cases h2

lemma liberar_reserva_error (inv : Inventario) (c : Int) (s : Inventario) (e : DomError)
    (h : inv.liberar_reserva c = (s, .error e)) : s = inv := by
  unfold Inventario.liberar_reserva at h
  split at h
  · exact ((Prod.mk.injEq .. ▸ h).1).symm
  · split at h
    · exact ((Prod.mk.injEq .. ▸ h).1).symm
    · obtain ⟨h1, h2⟩ := Prod.mk.injEq .. ▸ h
      cases h2

lemma ajustar_inventario_error (inv : Inventario) (n : Int) (m : String) (u : Int)
    (s : Inventario) (e : DomError)
    (h : inv.ajustar_inventario n m u = (s, .error e)) : s = inv := by
  unfold Inventario.ajustar_inventario at h
  split at h
  · exact ((Prod.mk.injEq .. ▸ h).1).symm
  · split at h
    · exact ((Prod.mk.injEq .. ▸ h).1).symm
    · obtain ⟨h1, h2⟩ := Prod.mk.injEq .. ▸ h
      cases h2

lemma ajustar_inventario_noop (inv : Inventario) (m : String) (u : Int)
    (hn : 0 ≤ inv.cantidad_actual) :
    inv.ajustar_inventario inv.cantidad_actual m u =
      (inv, .error .cantidadNoPositiva) := by
  unfold Inventario.ajustar_inventario
  rw [if_neg (by omega)]
  have : mkMovimiento .ajuste |inv.cantidad_actual - inv.cantidad_actual|
      ("Ajuste: " ++ m ++ " (de " ++ toString inv.cantidad_actual
        ++ " a " ++ toString inv.cantidad_actual ++ ")")
      u none = .error .cantidadNoPositiva := by
    unfold mkMovimiento
    rw [if_pos (by simp)]
  rw [this]

lemma append_assoc_str (a b c : String) : a ++ b ++ c = a ++ (b ++ c) := by
  apply String.ext
  simp [String.data_append]

/-- Any movement present after dispatching one operation was either already in
    the ledger or has strictly positive quantity. -/
lemma movimientos_nuevos_positivos (inv : Inventario) (op : Op) (s : Inventario)
    (r : Except DomError (Option MovimientoInventario)) (mov : MovimientoInventario)
    (h : aplicarFull inv op = (s, r)) (hmem : mov ∈ s.movimientos) :
    mov ∈ inv.movimientos ∨ 0 < mov.cantidad := by
  cases op with
  | entradaOp c m u p =>
    rcases hcall : inv.registrar_entrada c m u p with ⟨s1, res⟩
    simp only [aplicarFull] at h
    rw [hcall] at h
    obtain ⟨h1, _⟩ := Prod.mk.injEq .. ▸ h
    cases res with
    | error e =>
      rw [← h1, registrar_entrada_error _ _ _ _ _ _ _ hcall] at hmem
      exact Or.inl hmem
    | ok mov0 =>
      obtain ⟨hc, _, _, hmov, hs⟩ := registrar_entrada_ok _ _ _ _ _ _ _ hcall
      rw [← h1, hs] at hmem
      rcases List.mem_append.mp hmem with hold | hnew
      · exact Or.inl hold
      · right
        rw [List.mem_singleton.mp hnew, hmov]
        exact hc
  | salidaOp c m u v =>
    rcases hcall : inv.registrar_salida c m u v with ⟨s1, res⟩
    simp only [aplicarFull] at h
    rw [hcall] at h
    obtain ⟨h1, _⟩ := Prod.mk.injEq .. ▸ h
    cases res with
    | error e =>
      rw [← h1, registrar_salida_error _ _ _ _ _ _ _ hcall] at hmem
      exact Or.inl hmem
    | ok mov0 =>
      obtain ⟨hc, _, _, hmov, hs⟩ := registrar_salida_ok _ _ _ _ _ _ _ hcall
      rw [← h1, hs] at hmem
      rcases List.mem_append.mp hmem with hold | hnew
      · exact Or.inl hold
      · right
        rw [List.mem_singleton.mp hnew, hmov]
        exact hc
  | reservarOp c =>
    rcases hcall : inv.reservar c with ⟨s1, res⟩
    simp only [aplicarFull] at h
    rw [hcall] at h
    obtain ⟨h1, _⟩ := Prod.mk.injEq .. ▸ h
    cases res with
    | error e =>
      rw [← h1, reservar_error _ _ _ _ hcall] at hmem
      exact Or.inl hmem
    | ok unit0 =>
      obtain ⟨_, _, hs⟩ := reservar_ok _ _ _ hcall
      rw [← h1, hs] at hmem
      exact Or.inl hmem
  | liberarOp c =>
    rcases hcall : inv.liberar_reserva c with ⟨s1, res⟩
    simp only [aplicarFull] at h
    rw [hcall] at h
    obtain ⟨h1, _⟩ := Prod.mk.injEq .. ▸ h
    cases res with
    | error e =>
      rw [← h1, liberar_reserva_error _ _ _ _ hcall] at hmem
      exact Or.inl hmem
    | ok unit0 =>
      obtain ⟨_, _, hs⟩ := liberar_reserva_ok _ _ _ hcall
      rw [← h1, hs] at hmem
      exact Or.inl hmem
  | ajustarOp n m u =>
    rcases hcall : inv.ajustar_inventario n m u with ⟨s1, res⟩
    simp only [aplicarFull] at h
    rw [hcall] at h
    obtain ⟨h1, _⟩ := Prod.mk.injEq .. ▸ h
    cases res with
    | error e =>
      rw [← h1, ajustar_inventario_error _ _ _ _ _ _ hcall] at hmem
      exact Or.inl hmem
    | ok mov0 =>
      obtain ⟨_, hne, _, hcant, hs⟩ := ajustar_inventario_ok _ _ _ _ _ _ hcall
      rw [← h1, hs] at hmem
      rcases List.mem_append.mp hmem with hold | hnew
      · exact Or.inl hold
      · right
        rw [List.mem_singleton.mp hnew, hcant]
        rw [abs_pos]
        intro hz
        exact hne (by omega)

/-! ### Claim theorems -/

/-- C2: every engine operation checks all its preconditions before mutating
    anything: on any input on which the operation fails, the stock record on
    exit is exactly the one before the call — no quantity changed and no
    movement appended. -/
theorem C2_fallo_sin_efecto (inv : Inventario) (op : Op) (s : Inventario) (e : DomError)
    (h : aplicarFull inv op = (s, .error e)) : s = inv := by
  cases op with
  | entradaOp c m u p =>
    rcases hcall : inv.registrar_entrada c m u p with ⟨s1, res⟩
    simp only [aplicarFull] at h
    rw [hcall] at h
    obtain ⟨h1, h2⟩ := Prod.mk.injEq .. ▸ h
    cases res with
    | error e2 => exact h1.symm.trans (registrar_entrada_error _ _ _ _ _ _ _ hcall)
    | ok mov => simp [Except.map] at h2
  | salidaOp c m u v =>
    rcases hcall : inv.registrar_salida c m u v with ⟨s1, res⟩
    simp only [aplicarFull] at h
    rw [hcall] at h
    obtain ⟨h1, h2⟩ := Prod.mk.injEq .. ▸ h
    cases res with
    | error e2 => exact h1.symm.trans (registrar_salida_error _ _ _ _ _ _ _ hcall)
    | ok mov => simp [Except.map] at h2
  | reservarOp c =>
    rcases hcall : inv.reservar c with ⟨s1, res⟩
    simp only [aplicarFull] at h
    rw [hcall] at h
    obtain ⟨h1, h2⟩ := Prod.mk.injEq .. ▸ h
    cases res with
    | error e2 => exact h1.symm.trans (reservar_error _ _ _ _ hcall)
    | ok unit0 => simp [Except.map] at h2
  | liberarOp c =>
    rcases hcall : inv.liberar_reserva c with ⟨s1, res⟩
    simp only [aplicarFull] at h
    rw [hcall] at h
    obtain ⟨h1, h2⟩ := Prod.mk.injEq .. ▸ h
    cases res with
    | error e2 => exact h1.symm.trans (liberar_reserva_error _ _ _ _ hcall)
    | ok unit0 => simp [Except.map] at h2
  | ajustarOp n m u =>
    rcases hcall : inv.ajustar_inventario n m u with ⟨s1, res⟩
    simp only [aplicarFull] at h
    rw [hcall] at h
    obtain ⟨h1, h2⟩ := Prod.mk.injEq .. ▸ h
    cases res with
    | error e2 => exact h1.symm.trans (ajustar_inventario_error _ _ _ _ _ _ hcall)
    | ok mov => simp [Except.map] at h2

theorem C2_fallo_sin_efecto_witness :
    (aplicarFull ⟨1, 5, 0, "ALMACEN-PRINCIPAL", none, none, []⟩
        (.salidaOp 9 "venta" 1 true)).1 =
      ⟨1, 5, 0, "ALMACEN-PRINCIPAL", none, none, []⟩ :=
  C2_fallo_sin_efecto ⟨1, 5, 0, "ALMACEN-PRINCIPAL", none, none, []⟩
    (.salidaOp 9 "venta" 1 true) _ (.inventarioInsuficiente 5 9) (by rfl)

/-- C3: with availability checking on, a positive quantity and a valid reason,
    registrar_salida succeeds exactly when the quantity is at most
    cantidad_disponible; on success it subtracts the quantity from
    cantidad_actual and appends one SALIDA movement of that quantity; taking
    exactly the available quantity leaves cantidad_disponible at zero, and one
    unit more fails with the insufficient-stock error reporting available and
    requested. -/
theorem C3_salida_verificada (inv : Inventario) (c : Int) (m : String) (u : Int)
    (hc : 0 < c) (hm : motivoInvalido m = false) :
    ((∃ mov, (inv.registrar_salida c m u true).2 = .ok mov) ↔
        c ≤ inv.cantidad_disponible) ∧
    (∀ s mov, inv.registrar_salida c m u true = (s, .ok mov) →
      s.cantidad_actual = inv.cantidad_actual - c ∧
      s.cantidad_reservada = inv.cantidad_reservada ∧
      mov.tipo = .salida ∧ mov.cantidad = c ∧
      s.movimientos = inv.movimientos ++ [mov]) ∧
    (c = inv.cantidad_disponible →
      ∀ s mov, inv.registrar_salida c m u true = (s, .ok mov) →
        s.cantidad_disponible = 0) ∧
    (c = inv.cantidad_disponible + 1 →
      inv.registrar_salida c m u true =
        (inv, .error (.inventarioInsuficiente inv.cantidad_disponible c))) := by
  refine ⟨⟨?_, ?_⟩, ?_, ?_, ?_⟩
  · rintro ⟨mov, hok⟩
    rcases hcall : inv.registrar_salida c m u true with ⟨s1, res⟩
    rw [hcall] at hok
    cases res with
    | error e => cases hok
    | ok mov2 =>
      obtain ⟨_, _, hdisp, _, _⟩ := registrar_salida_ok _ _ _ _ _ _ _ hcall
      exact hdisp rfl
  · intro hdisp
    rw [registrar_salida_eq_ok inv c m u true hc hm (fun _ => hdisp)]
    exact ⟨_, rfl⟩
  · intro s mov hcall
    obtain ⟨_, _, _, hmov, hs⟩ := registrar_salida_ok _ _ _ _ _ _ _ hcall
    rw [hs, hmov]
    exact ⟨rfl, rfl, rfl, rfl, rfl⟩
  · intro heq s mov hcall
    obtain ⟨_, _, _, _, hs⟩ := registrar_salida_ok _ _ _ _ _ _ _ hcall
    subst hs
    show inv.cantidad_actual - c - inv.cantidad_reservada = 0
    unfold Inventario.cantidad_disponible at heq
    omega
  · intro hgt
    exact registrar_salida_insuficiente inv c m u hc (by omega)

theorem C3_salida_verificada_witness :
    ((⟨1, 50, 20, "ALMACEN-PRINCIPAL", none, none, []⟩ : Inventario).registrar_salida
        30 "venta" 1 true).1.cantidad_disponible = 0 := by
  have h := C3_salida_verificada ⟨1, 50, 20, "ALMACEN-PRINCIPAL", none, none, []⟩
    30 "venta" 1 (by decide) (by decide)
  exact h.2.2.1 (by decide) _ ⟨.salida, 30, "venta", 1, none⟩ (by rfl)

/-- C4: code-bug evidence — on a record with cantidad_actual = 5, a forced
    exit (verificar_disponibilidad = false) of 10 units succeeds and writes
    cantidad_actual = -5 instead of failing: the floor of 0 that the spec
    requires (surfaced as InvalidState) is not enforced on this path. -/
theorem C4_salida_forzada_negativa :
    (⟨1, 5, 0, "ALMACEN-PRINCIPAL", none, none, []⟩ : Inventario).registrar_salida
        10 "reconciliacion" 1 false =
      (⟨1, -5, 0, "ALMACEN-PRINCIPAL", none, none,
          [⟨.salida, 10, "reconciliacion", 1, none⟩]⟩,
        .ok ⟨.salida, 10, "reconciliacion", 1, none⟩) := by rfl

/-- C5 counterexample: registrar_entrada with a positive quantity but an empty
    reason text fails (motivo obligatorio), so the operation does not succeed
    for every reason text as the claim states. -/
theorem C5_contraejemplo :
    (⟨1, 0, 0, "ALMACEN-PRINCIPAL", none, none, []⟩ : Inventario).registrar_entrada
        5 "" 1 none =
      (⟨1, 0, 0, "ALMACEN-PRINCIPAL", none, none, []⟩, .error .motivoObligatorio) := by
  rfl

/-- C5 amended: for every stock record, qty > 0 and non-blank reason text
    (and no unit price), registrar_entrada always succeeds — there is no
    upper bound check — adding qty to cantidad_actual and appending exactly
    one ENTRADA movement with cantidad = qty; for qty ≤ 0 it fails with the
    invalid-quantity error and changes nothing. -/
theorem C5_entrada_valida (inv : Inventario) (c : Int) (m : String) (u : Int)
    (hm : motivoInvalido m = false) :
    (0 < c →
      inv.registrar_entrada c m u none =
        ({ inv with
            cantidad_actual := inv.cantidad_actual + c,
            movimientos := inv.movimientos ++ [⟨.entrada, c, m, u, none⟩] },
          .ok ⟨.entrada, c, m, u, none⟩)) ∧
    (c ≤ 0 → inv.registrar_entrada c m u none = (inv, .error .cantidadNoPositiva)) := by
  constructor
  · intro hc
    exact registrar_entrada_eq_ok inv c m u none hc hm rfl
  · intro hc
    unfold Inventario.registrar_entrada
    rw [if_pos hc]

theorem C5_entrada_valida_witness :
    ((⟨1, 0, 0, "ALMACEN-PRINCIPAL", none, none, []⟩ : Inventario).registrar_entrada
        7 "compra" 1 none).1.cantidad_actual = 7 := by
  have h := C5_entrada_valida ⟨1, 0, 0, "ALMACEN-PRINCIPAL", none, none, []⟩
    7 "compra" 1 (by decide)
  rw [h.1 (by decide)]
  rfl

/-- C6: ajustar_inventario rejects a negative target with the invalid-quantity
    error; for a non-negative target different from the current quantity it
    sets cantidad_actual to the target and records exactly one AJUSTE movement
    whose cantidad is the absolute difference and whose reason embeds the
    before and after values; adjusting to the unchanged current quantity is
    rejected (no zero-quantity movement is created); and any movement present
    after any operation is either pre-existing or strictly positive. -/
theorem C6_ajustar (inv : Inventario) (n : Int) (m : String) (u : Int) :
    (n < 0 → inv.ajustar_inventario n m u = (inv, .error .nuevaCantidadNegativa)) ∧
    (0 ≤ n → n ≠ inv.cantidad_actual →
      ∃ mov,
        inv.ajustar_inventario n m u =
          ({ inv with
              cantidad_actual := n,
              movimientos := inv.movimientos ++ [mov] }, .ok mov) ∧
        mov.tipo = .ajuste ∧ mov.cantidad = |n - inv.cantidad_actual| ∧
        (∃ pre post : String,
          mov.motivo = pre ++ toString inv.cantidad_actual ++ post) ∧
        (∃ pre post : String, mov.motivo = pre ++ toString n ++ post)) ∧
    (0 ≤ inv.cantidad_actual →
      inv.ajustar_inventario inv.cantidad_actual m u =
        (inv, .error .cantidadNoPositiva)) ∧
    (∀ op s r mov, aplicarFull inv op = (s, r) → mov ∈ s.movimientos →
      mov ∈ inv.movimientos ∨ 0 < mov.cantidad) := by
  refine ⟨?_, ?_, ?_, ?_⟩
  · intro hn
    unfold Inventario.ajustar_inventario
    rw [if_pos hn]
  · intro hn hne
    refine ⟨⟨.ajuste, |n - inv.cantidad_actual|,
      "Ajuste: " ++ m ++ " (de " ++ toString inv.cantidad_actual
        ++ " a " ++ toString n ++ ")", u, none⟩,
      ajustar_inventario_eq_ok inv n m u hn hne, rfl, rfl, ?_, ?_⟩
    · refine ⟨"Ajuste: " ++ m ++ " (de ",
        " a " ++ toString n ++ ")", ?_⟩
      simp only [append_assoc_str]
    · refine ⟨"Ajuste: " ++ m ++ " (de " ++ toString inv.cantidad_actual ++ " a ",
        ")", ?_⟩
      simp only [append_assoc_str]
  · intro hn
    exact ajustar_inventario_noop inv m u hn
  · intro op s r mov h hmem
    exact movimientos_nuevos_positivos inv op s r mov h hmem

theorem C6_ajustar_witness :
    ((⟨1, 5, 0, "ALMACEN-PRINCIPAL", none, none, []⟩ : Inventario).ajustar_inventario
        12 "conteo fisico" 1).1.cantidad_actual = 12 := by
  have h := C6_ajustar ⟨1, 5, 0, "ALMACEN-PRINCIPAL", none, none, []⟩ 12 "conteo fisico" 1
  rcases h.2.1 (by decide) (by decide) with ⟨mov, heq, _⟩
  rw [heq]

/-- C7: reservar of q followed by liberar_reserva of q restores the record
    exactly (same cantidad_reservada, and neither operation appends a
    movement); and liberar_reserva of more than the reserved quantity fails
    with the insufficient-reservation error leaving the record unchanged. -/
theorem C7_reserva (inv : Inventario) (q : Int)
    (hq : 0 < q) (hdisp : q ≤ inv.cantidad_disponible)
    (hres0 : 0 ≤ inv.cantidad_reservada) :
    (∃ s1, inv.reservar q = (s1, .ok ()) ∧
      s1.liberar_reserva q = (inv, .ok ()) ∧
      s1.movimientos = inv.movimientos) ∧
    (∀ q2, inv.cantidad_reservada < q2 →
      inv.liberar_reserva q2 =
        (inv, .error (.liberarMasQueReservado inv.cantidad_reservada q2))) := by
  constructor
  · refine ⟨{ inv with cantidad_reservada := inv.cantidad_reservada + q },
      reservar_eq_ok inv q hq hdisp, ?_, rfl⟩
    have h2 := liberar_reserva_eq_ok
      { inv with cantidad_reservada := inv.cantidad_reservada + q } q hq
      (by simp only; omega)
    simp only at h2
    rw [show inv.cantidad_reservada + q - q = inv.cantidad_reservada by omega] at h2
    exact h2
  · intro q2 hq2
    exact liberar_reserva_insuficiente inv q2 hres0 hq2

theorem C7_reserva_witness :
    (((⟨1, 50, 20, "ALMACEN-PRINCIPAL", none, none, []⟩ : Inventario).reservar
        10).1).liberar_reserva 10 =
      (⟨1, 50, 20, "ALMACEN-PRINCIPAL", none, none, []⟩, .ok ()) := by
  have h := C7_reserva ⟨1, 50, 20, "ALMACEN-PRINCIPAL", none, none, []⟩ 10
    (by decide) (by decide) (by decide)
  rcases h.1 with ⟨s1, h1, h2, _⟩
  rw [h1]
  exact h2

/-- C9: code-bug evidence — on every non-empty collection both the low-stock
    and the out-of-stock query raise TypeError instead of returning the
    claimed filtered set, because the model property cantidad_disponible they
    evaluate delegates through to_domain, whose fecha_creacion keyword
    argument does not exist on the domain dataclass; only on the empty
    collection do they return (the empty) list. -/
theorem C9_consultas_rotas (r : InventarioRow) (rest : List InventarioRow) :
    bajo_stock (r :: rest) =
      .error (.typeError "unexpected keyword argument fecha_creacion") ∧
    sin_stock (r :: rest) =
      .error (.typeError "unexpected keyword argument fecha_creacion") ∧
    bajo_stock [] = .ok [] ∧
    sin_stock [] = .ok [] :=
  ⟨rfl, rfl, rfl, rfl⟩

/-- C10: ajustar_inventario changes neither cantidad_reservada nor any
    identity field, whether it succeeds or fails; and it succeeds for every
    target 0 ≤ n with n different from cantidad_actual — including one
    strictly below the current reservation — setting cantidad_actual to the
    target (the code allows the resulting reservada > actual state). -/
theorem C10_ajuste_marco (inv : Inventario) (n : Int) (m : String) (u : Int) :
    ((inv.ajustar_inventario n m u).1.cantidad_reservada = inv.cantidad_reservada ∧
      (inv.ajustar_inventario n m u).1.producto_id = inv.producto_id ∧
      (inv.ajustar_inventario n m u).1.ubicacion = inv.ubicacion ∧
      (inv.ajustar_inventario n m u).1.lote = inv.lote ∧
      (inv.ajustar_inventario n m u).1.id = inv.id) ∧
    (0 ≤ n → n ≠ inv.cantidad_actual →
      (inv.ajustar_inventario n m u).1.cantidad_actual = n ∧
      ∃ mov, (inv.ajustar_inventario n m u).2 = .ok mov) := by
  constructor
  · rcases hcall : inv.ajustar_inventario n m u with ⟨s, res⟩
    cases res with
    | error e =>
      rw [ajustar_inventario_error _ _ _ _ _ _ hcall]
      exact ⟨rfl, rfl, rfl, rfl, rfl⟩
    | ok mov =>
      obtain ⟨_, _, _, _, hs⟩ := ajustar_inventario_ok _ _ _ _ _ _ hcall
      rw [hs]
      exact ⟨rfl, rfl, rfl, rfl, rfl⟩
  · intro hn hne
    rw [ajustar_inventario_eq_ok inv n m u hn hne]
    exact ⟨rfl, _, rfl⟩

theorem C10_ajuste_marco_witness :
    ((⟨1, 10, 5, "ALMACEN-PRINCIPAL", none, none, []⟩ : Inventario).ajustar_inventario
        2 "conteo" 1).1.cantidad_actual = 2 ∧
    ((⟨1, 10, 5, "ALMACEN-PRINCIPAL", none, none, []⟩ : Inventario).ajustar_inventario
        2 "conteo" 1).1.cantidad_reservada = 5 := by
  have h := C10_ajuste_marco ⟨1, 10, 5, "ALMACEN-PRINCIPAL", none, none, []⟩ 2 "conteo" 1
  exact ⟨(h.2 (by decide) (by decide)).1, h.1.1⟩

/-! ### Successful dispatch: aplicar-level inversion -/

lemma aplicar_ok_elim (inv : Inventario) (op : Op) (s : Inventario)
    (h : aplicar inv op = .ok s) :
    ∃ r, aplicarFull inv op = (s, .ok r) := by
  unfold aplicar at h
  rcases hfull : aplicarFull inv op with ⟨s1, res⟩
  rw [hfull] at h
  cases res with
  | error e => simp [Except.map] at h
  | ok r =>
    simp [Except.map] at h
    exact ⟨r, by rw [h]⟩

lemma aplicar_entradaOp_ok (inv : Inventario) (c : Int) (m : String) (u : Int)
    (p : Option Rat) (s : Inventario)
    (h : aplicar inv (.entradaOp c m u p) = .ok s) :
    ∃ mov, inv.registrar_entrada c m u p = (s, .ok mov) := by
  obtain ⟨r, hfull⟩ := aplicar_ok_elim _ _ _ h
  rcases hcall : inv.registrar_entrada c m u p with ⟨s1, res⟩
  simp only [aplicarFull] at hfull
  rw [hcall] at hfull
  obtain ⟨h1, h2⟩ := Prod.mk.injEq .. ▸ hfull
  cases res with
  | error e => simp [Except.map] at h2
  | ok mov => exact ⟨mov, by rw [show s1 = s from h1]⟩

lemma aplicar_salidaOp_ok (inv : Inventario) (c : Int) (m : String) (u : Int)
    (v : Bool) (s : Inventario)
    (h : aplicar inv (.salidaOp c m u v) = .ok s) :
    ∃ mov, inv.registrar_salida c m u v = (s, .ok mov) := by
  obtain ⟨r, hfull⟩ := aplicar_ok_elim _ _ _ h
  rcases hcall : inv.registrar_salida c m u v with ⟨s1, res⟩
  simp only [aplicarFull] at hfull
  rw [hcall] at hfull
  obtain ⟨h1, h2⟩ := Prod.mk.injEq .. ▸ hfull
  cases res with
  | error e => simp [Except.map] at h2
  | ok mov => exact ⟨mov, by rw [show s1 = s from h1]⟩

lemma aplicar_reservarOp_ok (inv : Inventario) (c : Int) (s : Inventario)
    (h : aplicar inv (.reservarOp c) = .ok s) :
    inv.reservar c = (s, .ok ()) := by
  obtain ⟨r, hfull⟩ := aplicar_ok_elim _ _ _ h
  rcases hcall : inv.reservar c with ⟨s1, res⟩
  simp only [aplicarFull] at hfull
  rw [hcall] at hfull
  obtain ⟨h1, h2⟩ := Prod.mk.injEq .. ▸ hfull
  cases res with
  | error e => simp [Except.map] at h2
  | ok u0 =>
    cases u0
    rw [show s1 = s from h1]

lemma aplicar_liberarOp_ok (inv : Inventario) (c : Int) (s : Inventario)
    (h : aplicar inv (.liberarOp c) = .ok s) :
    inv.liberar_reserva c = (s, .ok ()) := by
  obtain ⟨r, hfull⟩ := aplicar_ok_elim _ _ _ h
  rcases hcall : inv.liberar_reserva c with ⟨s1, res⟩
  simp only [aplicarFull] at hfull
  rw [hcall] at hfull
  obtain ⟨h1, h2⟩ := Prod.mk.injEq .. ▸ hfull
  cases res with
  | error e => simp [Except.map] at h2
  | ok u0 =>
    cases u0
    rw [show s1 = s from h1]

lemma aplicar_ajustarOp_ok (inv : Inventario) (n : Int) (m : String) (u : Int)
    (s : Inventario)
    (h : aplicar inv (.ajustarOp n m u) = .ok s) :
    ∃ mov, inv.ajustar_inventario n m u = (s, .ok mov) := by
  obtain ⟨r, hfull⟩ := aplicar_ok_elim _ _ _ h
  rcases hcall : inv.ajustar_inventario n m u with ⟨s1, res⟩
  simp only [aplicarFull] at hfull
  rw [hcall] at hfull
  obtain ⟨h1, h2⟩ := Prod.mk.injEq .. ▸ hfull
  cases res with
  | error e => simp [Except.map] at h2
  | ok mov => exact ⟨mov, by rw [show s1 = s from h1]⟩

/-! ### Ledger conservation -/

lemma sumCantidad_append (t : TipoMovimiento) (l1 l2 : List MovimientoInventario) :
    sumCantidad t (l1 ++ l2) = sumCantidad t l1 + sumCantidad t l2 := by
  unfold sumCantidad
  rw [List.map_append, List.sum_append]

lemma run_cons_ok (inv : Inventario) (op : Op) (ops : List Op) (s1 : Inventario)
    (hap : aplicar inv op = .ok s1) :
    run inv (op :: ops) = run s1 ops := by
  show (aplicar inv op).bind (fun s => run s ops) = run s1 ops
  rw [hap]
  rfl

lemma run_cons_error (inv : Inventario) (op : Op) (ops : List Op) (e : DomError)
    (hap : aplicar inv op = .error e) :
    run inv (op :: ops) = .error e := by
  show (aplicar inv op).bind (fun s => run s ops) = .error e
  rw [hap]
  rfl

lemma ajusteNet_cons_ok (inv : Inventario) (op : Op) (ops : List Op) (s1 : Inventario)
    (hap : aplicar inv op = .ok s1) :
    ajusteNet inv (op :: ops) = deltaAjuste inv op + ajusteNet s1 ops := by
  show (match aplicar inv op with
        | .error _ => 0
        | .ok s => deltaAjuste inv op + ajusteNet s ops) =
      deltaAjuste inv op + ajusteNet s1 ops
  rw [hap]

/-- The per-operation accounting step: one successful operation changes
    cantidad_actual by exactly the sums of its appended movement, plus the
    signed adjustment delta when the operation is an adjustment. -/
lemma paso_conservacion (inv : Inventario) (op : Op) (s : Inventario)
    (h : aplicar inv op = .ok s) :
    s.cantidad_actual - inv.cantidad_actual =
      (sumCantidad .entrada s.movimientos - sumCantidad .entrada inv.movimientos)
      - (sumCantidad .salida s.movimientos - sumCantidad .salida inv.movimientos)
      + deltaAjuste inv op := by
  cases op with
  | entradaOp c m u p =>
    obtain ⟨mov, hcall⟩ := aplicar_entradaOp_ok _ _ _ _ _ _ h
    obtain ⟨hc, _, _, hmov, hs⟩ := registrar_entrada_ok _ _ _ _ _ _ _ hcall
    subst hmov
    subst hs
    show inv.cantidad_actual + c - inv.cantidad_actual =
      (sumCantidad .entrada (inv.movimientos ++ [⟨.entrada, c, m, u, p⟩])
          - sumCantidad .entrada inv.movimientos)
        - (sumCantidad .salida (inv.movimientos ++ [⟨.entrada, c, m, u, p⟩])
          - sumCantidad .salida inv.movimientos) + 0
    rw [sumCantidad_append, sumCantidad_append]
    simp [sumCantidad]
  | salidaOp c m u v =>
    obtain ⟨mov, hcall⟩ := aplicar_salidaOp_ok _ _ _ _ _ _ h
    obtain ⟨hc, _, _, hmov, hs⟩ := registrar_salida_ok _ _ _ _ _ _ _ hcall
    subst hmov
    subst hs
    show inv.cantidad_actual - c - inv.cantidad_actual =
      (sumCantidad .entrada (inv.movimientos ++ [⟨.salida, c, m, u, none⟩])
          - sumCantidad .entrada inv.movimientos)
        - (sumCantidad .salida (inv.movimientos ++ [⟨.salida, c, m, u, none⟩])
          - sumCantidad .salida inv.movimientos) + 0
    rw [sumCantidad_append, sumCantidad_append]
    simp [sumCantidad]
  | reservarOp c =>
    have hcall := aplicar_reservarOp_ok _ _ _ h
    obtain ⟨_, _, hs⟩ := reservar_ok _ _ _ hcall
    subst hs
    show inv.cantidad_actual - inv.cantidad_actual =
      (sumCantidad .entrada inv.movimientos - sumCantidad .entrada inv.movimientos)
        - (sumCantidad .salida inv.movimientos - sumCantidad .salida inv.movimientos) + 0
    omega
  | liberarOp c =>
    have hcall := aplicar_liberarOp_ok _ _ _ h
    obtain ⟨_, _, hs⟩ := liberar_reserva_ok _ _ _ hcall
    subst hs
    show inv.cantidad_actual - inv.cantidad_actual =
      (sumCantidad .entrada inv.movimientos - sumCantidad .entrada inv.movimientos)
        - (sumCantidad .salida inv.movimientos - sumCantidad .salida inv.movimientos) + 0
    omega
  | ajustarOp n m u =>
    obtain ⟨mov, hcall⟩ := aplicar_ajustarOp_ok _ _ _ _ _ h
    obtain ⟨hn, hne, htipo, hcant, hs⟩ := ajustar_inventario_ok _ _ _ _ _ _ hcall
    subst hs
    show n - inv.cantidad_actual =
      (sumCantidad .entrada (inv.movimientos ++ [mov])
          - sumCantidad .entrada inv.movimientos)
        - (sumCantidad .salida (inv.movimientos ++ [mov])
          - sumCantidad .salida inv.movimientos) + (n - inv.cantidad_actual)
    rw [sumCantidad_append, sumCantidad_append]
    simp [sumCantidad, htipo]

/-- Run-level accounting: along any successful run, the change of
    cantidad_actual equals entry sums minus exit sums plus the net signed
    adjustment effect. -/
lemma conservacion_run (ops : List Op) : ∀ inv s, run inv ops = .ok s →
    s.cantidad_actual - inv.cantidad_actual =
      (sumCantidad .entrada s.movimientos - sumCantidad .entrada inv.movimientos)
      - (sumCantidad .salida s.movimientos - sumCantidad .salida inv.movimientos)
      + ajusteNet inv ops := by
  induction ops with
  | nil =>
    intro inv s h
    have h2 : (Except.ok inv : Except DomError Inventario) = Except.ok s := h
    injection h2 with h3
    subst h3
    rw [show ajusteNet inv [] = 0 from rfl]
    omega
  | cons op ops ih =>
    intro inv s h
    rcases hap : aplicar inv op with e | s1
    · rw [run_cons_error inv op ops e hap] at h
      cases h
    · rw [run_cons_ok inv op ops s1 hap] at h
      have hstep := paso_conservacion inv op s1 hap
      have hnet := ajusteNet_cons_ok inv op ops s1 hap
      have ih2 := ih s1 s h
      rw [hnet]
      omega

/-! ### C1 and C8 claim theorems -/

/-- C1 counterexample: from a freshly created record (zero stock, zero
    reserved) the successful operation sequence entrada 5, reservar 5,
    ajustar 2 ends in a state with cantidad_actual = 2 and
    cantidad_reservada = 5, violating cantidad_reservada ≤ cantidad_actual —
    so the invariant does not hold after every successful operation. -/
theorem C1_contraejemplo :
    (run ⟨1, 0, 0, "ALMACEN-PRINCIPAL", none, none, []⟩
        [.entradaOp 5 "compra" 1 none, .reservarOp 5, .ajustarOp 2 "conteo" 1]).toOption.map
        (fun s => (s.cantidad_actual, s.cantidad_reservada)) = some (2, 5) := by
  rfl

/-- C1 amended: the stock-record invariant (cantidad_actual ≥ 0,
    cantidad_reservada ≥ 0, cantidad_reservada ≤ cantidad_actual) is
    preserved by every successful engine operation, provided registrar_salida
    is called with verificar_disponibilidad = true and ajustar_inventario is
    not asked for a target below the current reservation; the excluded cases
    (forced exit, adjustment below the reservation) are exactly the two ways
    the code lets the invariant break. -/
theorem C1_invariante_paso (inv : Inventario) (op : Op) (s : Inventario)
    (hinv : invariante inv)
    (hforz : ∀ c m u, op ≠ .salidaOp c m u false)
    (haj : ∀ n m u, op = .ajustarOp n m u → inv.cantidad_reservada ≤ n)
    (h : aplicar inv op = .ok s) : invariante s := by
  obtain ⟨hA, hR, hRA⟩ := hinv
  cases op with
  | entradaOp c m u p =>
    obtain ⟨mov, hcall⟩ := aplicar_entradaOp_ok _ _ _ _ _ _ h
    obtain ⟨hc, _, _, _, hs⟩ := registrar_entrada_ok _ _ _ _ _ _ _ hcall
    subst hs
    exact ⟨by show 0 ≤ inv.cantidad_actual + c; omega,
      by show 0 ≤ inv.cantidad_reservada; omega,
      by show inv.cantidad_reservada ≤ inv.cantidad_actual + c; omega⟩
  | salidaOp c m u v =>
    cases v with
    | false => exact absurd rfl (hforz c m u)
    | true =>
      obtain ⟨mov, hcall⟩ := aplicar_salidaOp_ok _ _ _ _ _ _ h
      obtain ⟨hc, _, hdisp, _, hs⟩ := registrar_salida_ok _ _ _ _ _ _ _ hcall
      have hd := hdisp rfl
      unfold Inventario.cantidad_disponible at hd
      subst hs
      exact ⟨by show 0 ≤ inv.cantidad_actual - c; omega,
        by show 0 ≤ inv.cantidad_reservada; omega,
        by show inv.cantidad_reservada ≤ inv.cantidad_actual - c; omega⟩
  | reservarOp c =>
    have hcall := aplicar_reservarOp_ok _ _ _ h
    obtain ⟨hc, hdisp, hs⟩ := reservar_ok _ _ _ hcall
    unfold Inventario.cantidad_disponible at hdisp
    subst hs
    exact ⟨by show 0 ≤ inv.cantidad_actual; omega,
      by show 0 ≤ inv.cantidad_reservada + c; omega,
      by show inv.cantidad_reservada + c ≤ inv.cantidad_actual; omega⟩
  | liberarOp c =>
    have hcall := aplicar_liberarOp_ok _ _ _ h
    obtain ⟨hc, hres, hs⟩ := liberar_reserva_ok _ _ _ hcall
    subst hs
    exact ⟨by show 0 ≤ inv.cantidad_actual; omega,
      by show 0 ≤ inv.cantidad_reservada - c; omega,
      by show inv.cantidad_reservada - c ≤ inv.cantidad_actual; omega⟩
  | ajustarOp n m u =>
    obtain ⟨mov, hcall⟩ := aplicar_ajustarOp_ok _ _ _ _ _ h
    obtain ⟨hn, _, _, _, hs⟩ := ajustar_inventario_ok _ _ _ _ _ _ hcall
    have hr := haj n m u rfl
    subst hs
    exact ⟨by show 0 ≤ n; omega,
      by show 0 ≤ inv.cantidad_reservada; omega,
      by show inv.cantidad_reservada ≤ n; omega⟩

theorem C1_invariante_paso_witness :
    invariante (aplicarFull ⟨1, 0, 0, "ALMACEN-PRINCIPAL", none, none, []⟩
      (.entradaOp 5 "compra" 1 none)).1 := by
  refine C1_invariante_paso ⟨1, 0, 0, "ALMACEN-PRINCIPAL", none, none, []⟩
    (.entradaOp 5 "compra" 1 none) _ (by decide) ?_ ?_ (by rfl)
  · intro c m u hne
    cases hne
  · intro n m u hne
    cases hne

/-- C8: for a record that starts with zero stock and an empty ledger and is
    mutated only by successful registrar_entrada, registrar_salida and
    ajustar_inventario calls, the sum of ENTRADA quantities minus the sum of
    SALIDA quantities plus the net signed effect of the AJUSTE deltas equals
    the final cantidad_actual. -/
theorem C8_conservacion_ledger (inv : Inventario) (ops : List Op) (s : Inventario)
    (h0 : inv.cantidad_actual = 0) (hm : inv.movimientos = [])
    (hops : ∀ op ∈ ops, esEntradaSalidaAjuste op = true)
    (h : run inv ops = .ok s) :
    s.cantidad_actual =
      sumCantidad .entrada s.movimientos - sumCantidad .salida s.movimientos
        + ajusteNet inv ops := by
  have hc := conservacion_run ops inv s h
  rw [h0, hm] at hc
  rw [show sumCantidad .entrada ([] : List MovimientoInventario) = 0 from rfl,
    show sumCantidad .salida ([] : List MovimientoInventario) = 0 from rfl] at hc
  omega

theorem C8_conservacion_ledger_witness :
    (⟨1, 40, 0, "ALMACEN-PRINCIPAL", none, none,
        [⟨.entrada, 50, "compra", 1, none⟩, ⟨.salida, 20, "venta", 1, none⟩,
          ⟨.ajuste, 10, "Ajuste: conteo (de 30 a 40)", 1, none⟩]⟩ : Inventario).cantidad_actual =
      sumCantidad .entrada
          [⟨.entrada, 50, "compra", 1, none⟩, ⟨.salida, 20, "venta", 1, none⟩,
            ⟨.ajuste, 10, "Ajuste: conteo (de 30 a 40)", 1, none⟩]
        - sumCantidad .salida
          [⟨.entrada, 50, "compra", 1, none⟩, ⟨.salida, 20, "venta", 1, none⟩,
            ⟨.ajuste, 10, "Ajuste: conteo (de 30 a 40)", 1, none⟩]
        + ajusteNet ⟨1, 0, 0, "ALMACEN-PRINCIPAL", none, none, []⟩
          [.entradaOp 50 "compra" 1 none, .salidaOp 20 "venta" 1 true,
            .ajustarOp 40 "conteo" 1] := by
  exact C8_conservacion_ledger ⟨1, 0, 0, "ALMACEN-PRINCIPAL", none, none, []⟩
    [.entradaOp 50 "compra" 1 none, .salidaOp 20 "venta" 1 true, .ajustarOp 40 "conteo" 1]
    _ rfl rfl (by decide) (by rfl)

end BackPoetry
